import Mathlib

/-!
Shallow embedding of the job-crawling pipeline (src/: config.py,
fetcher.py, progress_tracker.py, scraper.py, data_saver.py,
downloader.py, main.py) and proofs about it.

External collaborators (the HTTP transport, the regular-expression
engine, the HTML parser) are modelled as explicit oracle functions
passed in an environment; everything the repository itself computes is
translated directly from the Python source.
-/

namespace JobCrawling

/-! ## config.py -/

/-- `NUM_JOBS = 1000` (config.py line 14). -/
def NUM_JOBS : Nat := 1000

/-- `HTML_FILE_LIMIT = 90` (config.py line 15). -/
def HTML_FILE_LIMIT : Nat := 90

/-- `MAX_RETRIES = 3` (config.py line 19). -/
def MAX_RETRIES : Nat := 3

/-! ## progress_tracker.py — `ProgressTracker`

The tracker's mutable fields; `total_jobs` and `html_file_limit` are the
constructor parameters, read-only during a run.  The log-file path, the
lock and the display threads carry no counter state and are omitted. -/

structure ProgressState where
  total_jobs : Nat
  html_file_limit : Nat
  fetched : Nat
  scraped : Nat
  downloaded : Nat
  fetching_done : Bool
  scraping_done : Bool
  downloading_done : Bool
  deriving Repr, DecidableEq

/-- `ProgressTracker.__init__`: counters start at 0, flags at False. -/
def ProgressState.init (total_jobs html_file_limit : Nat) : ProgressState :=
  { total_jobs := total_jobs
    html_file_limit := html_file_limit
    fetched := 0
    scraped := 0
    downloaded := 0
    fetching_done := false
    scraping_done := false
    downloading_done := false }

/-- Second statement of `update_fetch`: set `fetching_done` once
`fetched == total_jobs` (the `and not self.fetching_done` guard only
avoids rewriting a flag that is already `True`). -/
def fetch_done_check (s : ProgressState) : ProgressState :=
  if s.fetched = s.total_jobs ∧ s.fetching_done = false
  then { s with fetching_done := true } else s

/-- `ProgressTracker.update_fetch` (progress_tracker.py lines 93-104):
increment `fetched` only while below `total_jobs`; then set
`fetching_done` once `fetched == total_jobs`. -/
def update_fetch (s : ProgressState) : ProgressState :=
  fetch_done_check
    (if s.fetched < s.total_jobs then { s with fetched := s.fetched + 1 } else s)

/-- Last statements of `update_scrape`: set `scraping_done` once
`scraped == total_jobs`. -/
def scrape_done_check (s : ProgressState) : ProgressState :=
  if s.scraped = s.total_jobs ∧ s.scraping_done = false
  then { s with scraping_done := true } else s

/-- `ProgressTracker.update_scrape` (progress_tracker.py lines 106-120):
return immediately unless `fetching_done`; increment `scraped` only while
below `fetched`; then set `scraping_done` once `scraped == total_jobs`. -/
def update_scrape (s : ProgressState) : ProgressState :=
  if s.fetching_done = false then s
  else
    scrape_done_check
      (if s.scraped < s.fetched then { s with scraped := s.scraped + 1 } else s)

/-- `ProgressTracker.update_download` (progress_tracker.py lines 122-130):
increment `downloaded` only while below `html_file_limit`. -/
def update_download (s : ProgressState) : ProgressState :=
  if s.downloaded < s.html_file_limit then { s with downloaded := s.downloaded + 1 } else s

/-- One call into the tracker's public counter interface. -/
inductive ProgressOp
  | fetch
  | scrape
  | download
  deriving Repr, DecidableEq

def applyOp (s : ProgressState) : ProgressOp → ProgressState
  | .fetch => update_fetch s
  | .scrape => update_scrape s
  | .download => update_download s

/-- A sequence of calls, applied left to right. -/
def runOps (s : ProgressState) (ops : List ProgressOp) : ProgressState :=
  ops.foldl applyOp s

/-- The counter invariant of spec §3 / §8. -/
def ProgressInv (s : ProgressState) : Prop :=
  s.scraped ≤ s.fetched ∧ s.fetched ≤ s.total_jobs ∧ s.downloaded ≤ s.html_file_limit

/-- `fetch_done_check` touches only the flag. -/
lemma fetch_done_check_counters (s : ProgressState) :
    (fetch_done_check s).scraped = s.scraped ∧
    (fetch_done_check s).fetched = s.fetched ∧
    (fetch_done_check s).downloaded = s.downloaded ∧
    (fetch_done_check s).total_jobs = s.total_jobs ∧
    (fetch_done_check s).html_file_limit = s.html_file_limit := by
  unfold fetch_done_check; split <;> simp

/-- `scrape_done_check` touches only the flag. -/
lemma scrape_done_check_counters (s : ProgressState) :
    (scrape_done_check s).scraped = s.scraped ∧
    (scrape_done_check s).fetched = s.fetched ∧
    (scrape_done_check s).downloaded = s.downloaded ∧
    (scrape_done_check s).total_jobs = s.total_jobs ∧
    (scrape_done_check s).html_file_limit = s.html_file_limit := by
  unfold scrape_done_check; split <;> simp

/-- The read-only configuration fields are never written. -/
lemma applyOp_config (s : ProgressState) (op : ProgressOp) :
    (applyOp s op).total_jobs = s.total_jobs ∧
    (applyOp s op).html_file_limit = s.html_file_limit := by
  cases op
  · have h1 := fetch_done_check_counters
      (if s.fetched < s.total_jobs then { s with fetched := s.fetched + 1 } else s)
    refine ⟨h1.2.2.2.1.trans ?_, h1.2.2.2.2.trans ?_⟩ <;> split <;> rfl
  · show (update_scrape s).total_jobs = _ ∧ (update_scrape s).html_file_limit = _
    unfold update_scrape
    split
    · exact ⟨rfl, rfl⟩
    · have h1 := scrape_done_check_counters
        (if s.scraped < s.fetched then { s with scraped := s.scraped + 1 } else s)
      refine ⟨h1.2.2.2.1.trans ?_, h1.2.2.2.2.trans ?_⟩ <;> split <;> rfl
  · show (update_download s).total_jobs = _ ∧ (update_download s).html_file_limit = _
    unfold update_download
    split <;> exact ⟨rfl, rfl⟩

lemma update_fetch_inv {s : ProgressState} (h : ProgressInv s) :
    ProgressInv (update_fetch s) := by
  obtain ⟨h1, h2, h3⟩ := h
  unfold ProgressInv update_fetch
  obtain ⟨c1, c2, c3, c4, c5⟩ := fetch_done_check_counters
    (if s.fetched < s.total_jobs then { s with fetched := s.fetched + 1 } else s)
  rw [c1, c2, c3, c4, c5]
  split
  · rename_i hlt
    exact ⟨Nat.le_succ_of_le h1, hlt, h3⟩
  · exact ⟨h1, h2, h3⟩

lemma update_scrape_inv {s : ProgressState} (h : ProgressInv s) :
    ProgressInv (update_scrape s) := by
  obtain ⟨h1, h2, h3⟩ := h
  unfold ProgressInv update_scrape
  split
  · exact ⟨h1, h2, h3⟩
  · obtain ⟨c1, c2, c3, c4, c5⟩ := scrape_done_check_counters
      (if s.scraped < s.fetched then { s with scraped := s.scraped + 1 } else s)
    rw [c1, c2, c3, c4, c5]
    split
    · rename_i hlt
      exact ⟨hlt, h2, h3⟩
    · exact ⟨h1, h2, h3⟩

lemma update_download_inv {s : ProgressState} (h : ProgressInv s) :
    ProgressInv (update_download s) := by
  obtain ⟨h1, h2, h3⟩ := h
  unfold ProgressInv update_download
  split
  · rename_i hlt
    exact ⟨h1, h2, hlt⟩
  · exact ⟨h1, h2, h3⟩

lemma applyOp_inv {s : ProgressState} (h : ProgressInv s) (op : ProgressOp) :
    ProgressInv (applyOp s op) := by
  cases op
  · exact update_fetch_inv h
  · exact update_scrape_inv h
  · exact update_download_inv h

lemma runOps_inv {s : ProgressState} (h : ProgressInv s) (ops : List ProgressOp) :
    ProgressInv (runOps s ops) := by
  induction ops generalizing s with
  | nil => exact h
  | cons op rest ih => exact ih (applyOp_inv h op)

/-- C2: after every sequence of `update_fetch` / `update_scrape` /
`update_download` calls starting from a freshly constructed tracker,
`scraped ≤ fetched ≤ total_jobs` and `downloaded ≤ html_file_limit`:
each counter is a bounded increment saturating at its ceiling, and being
a `Nat` it can never go negative. -/
theorem progress_invariant_holds (total_jobs html_file_limit : Nat)
    (ops : List ProgressOp) :
    (runOps (ProgressState.init total_jobs html_file_limit) ops).scraped ≤
      (runOps (ProgressState.init total_jobs html_file_limit) ops).fetched ∧
    (runOps (ProgressState.init total_jobs html_file_limit) ops).fetched ≤ total_jobs ∧
    (runOps (ProgressState.init total_jobs html_file_limit) ops).downloaded ≤
      html_file_limit := by
  have hconf : ∀ s ops', (runOps s ops').total_jobs = s.total_jobs ∧
      (runOps s ops').html_file_limit = s.html_file_limit := by
    intro s ops'
    induction ops' generalizing s with
    | nil => exact ⟨rfl, rfl⟩
    | cons op rest ih =>
      have h1 := applyOp_config s op
      have h2 := ih (applyOp s op)
      exact ⟨h2.1.trans h1.1, h2.2.trans h1.2⟩
  have hinv : ProgressInv (runOps (ProgressState.init total_jobs html_file_limit) ops) :=
    runOps_inv ⟨Nat.le_refl 0, Nat.zero_le _, Nat.zero_le _⟩ ops
  have hc := hconf (ProgressState.init total_jobs html_file_limit) ops
  obtain ⟨i1, i2, i3⟩ := hinv
  rw [hc.1] at i2
  rw [hc.2] at i3
  exact ⟨i1, i2, i3⟩

/-- C3: while `fetching_done` is false, `update_scrape` is a no-op:
the state — every field — is returned unchanged. -/
theorem update_scrape_noop_before_fetching_done (s : ProgressState)
    (h : s.fetching_done = false) : update_scrape s = s := by
  unfold update_scrape
  simp [h]

/-- Witness for C3 at a concrete tracker state. -/
theorem update_scrape_noop_before_fetching_done_witness :
    update_scrape (ProgressState.init 5 3) = ProgressState.init 5 3 :=
  update_scrape_noop_before_fetching_done (ProgressState.init 5 3) rfl

/-! ## progress_tracker.py — `ProgressTracker.complete`

```
max_retries = 10  # Prevent infinite loop
retries = 0
while not self.downloading_done and retries < max_retries:
    logging.info(...)   # "Still waiting" diagnostic
    time.sleep(1)
```

The loop body only logs and sleeps: `retries` is never incremented.  We
model `downloading_done` as observed at iteration `i` by a function
`flag : Nat → Bool` (another thread may set it), and run the loop for up
to `fuel` iterations. -/

/-- The body of the polling loop in `complete`: `logging.info` and
`time.sleep(1)` leave `retries` untouched. -/
def complete_body (retries : Nat) : Nat := retries

/-- The polling loop of `complete`, run for at most `fuel` iterations
from iteration index `i` with the given `retries` value.  Returns
`some k` when the `while` guard fails at iteration `k` (the loop exits),
`none` when the loop is still running after `fuel` iterations. -/
def completeLoop (flag : Nat → Bool) : Nat → Nat → Nat → Option Nat
  | 0, _, _ => none
  | fuel + 1, i, retries =>
    if flag i = false ∧ retries < 10 then
      completeLoop flag fuel (i + 1) (complete_body retries)
    else some i

/-- `ProgressTracker.complete` polling, started with `retries = 0` as in
the source. -/
def complete_poll (flag : Nat → Bool) (fuel : Nat) : Option Nat :=
  completeLoop flag fuel 0 0

lemma completeLoop_stuck (fuel : Nat) :
    ∀ i retries, retries < 10 →
      completeLoop (fun _ => false) fuel i retries = none := by
  induction fuel with
  | zero => intro i retries _; rfl
  | succ n ih =>
    intro i retries hr
    unfold completeLoop
    rw [if_pos ⟨rfl, hr⟩]
    exact ih (i + 1) (complete_body retries) hr

/-- C4 (refuting the claim): when `downloading_done` never becomes true,
the polling loop of `complete` never exits — for every iteration budget
`fuel`, after `fuel` iterations it is still looping, because the body
never increments `retries`, so the guard `retries < max_retries` stays
true forever.  The claim of termination after at most `max_retries`
iterations is false on the code. -/
theorem complete_poll_never_exits (fuel : Nat) :
    complete_poll (fun _ => false) fuel = none :=
  completeLoop_stuck fuel 0 0 (by decide)

/-! ## fetcher.py — `Fetcher.fetch_page` (lines 41-69)

```
retries = 0
while retries < MAX_RETRIES:
    try:
        response = requests.get(...)
        response.raise_for_status()
        return response.text
    #except requests.exceptions.Timeout:        (commented out)
        #logging.error(...)
    except requests.exceptions.TooManyRedirects:
        return None
    except requests.exceptions.RequestException as err:
        return None
    retries += 1
    time.sleep(2 ** retries)  # Exponential backoff
return None
```

`attempt n` is the outcome of the n-th HTTP request (success, a
redirect-loop error, or any other `RequestException` — which includes
timeouts and non-2xx responses raised by `raise_for_status`). -/

inductive FetchOutcome where
  | success (text : String)
  | tooManyRedirects
  | requestException
  deriving Repr, DecidableEq

/-- The `while retries < MAX_RETRIES` loop of `fetch_page`, with
`fuel = MAX_RETRIES - retries`.  Every branch of the try/except
`return`s, so the trailing `retries += 1; time.sleep(2 ** retries)`
statements are unreachable: the loop body has no fall-through
continuation (a retry would be `fetch_page_loop attempt fuel
(retries + 1)` after the match, but no branch reaches it). -/
def fetch_page_loop (attempt : Nat → FetchOutcome) : Nat → Nat → Option String
  | 0, _ => none
  | _ + 1, retries =>
    match attempt retries with
    | .success t => some t
    | .tooManyRedirects => none
    | .requestException => none

/-- `Fetcher.fetch_page`: the loop entered with `retries = 0`. -/
def fetch_page (attempt : Nat → FetchOutcome) : Option String :=
  fetch_page_loop attempt MAX_RETRIES 0

/-- An address whose first request fails with a transient
`RequestException` and whose second request would succeed. -/
def transientThenOk : Nat → FetchOutcome :=
  fun n => if n = 0 then .requestException else .success "ok"

/-- C1 (refuting the retry claim): on a transient failure of the first
request, `fetch_page` returns `None` immediately even though a second
attempt would succeed and `MAX_RETRIES = 3` allows it — in fact for
every sequence of outcomes the result is decided by attempt 0 alone, so
no request is ever retried and no backoff delay is ever taken. -/
theorem fetch_page_never_retries :
    fetch_page transientThenOk = none ∧
    transientThenOk 1 = FetchOutcome.success "ok" ∧
    1 < MAX_RETRIES ∧
    ∀ attempt : Nat → FetchOutcome,
      fetch_page attempt =
        match attempt 0 with
        | .success t => some t
        | .tooManyRedirects => none
        | .requestException => none := by
  refine ⟨rfl, rfl, by decide, ?_⟩
  intro attempt
  cases h : attempt 0 <;> simp [fetch_page, MAX_RETRIES, fetch_page_loop, h]

/-! ## Job records

`scraper.py` builds a job-details dict with these keys; `data_saver.py`
consumes it, keyed by `url`. -/

structure Job where
  id : Nat
  url : String
  title : String
  publication_date : String
  workload : String
  contract_type : String
  salary : String
  languages : String
  place_of_work : String
  deriving Repr, DecidableEq

/-- A record with the given id and detail address and every extracted
field at the sentinel value. -/
def mkJob (id : Nat) (url : String) : Job :=
  { id := id, url := url, title := "N/A", publication_date := "N/A",
    workload := "N/A", contract_type := "N/A", salary := "N/A",
    languages := "N/A", place_of_work := "N/A" }

/-! ## data_saver.py — `DataSaver.save_job` (lines 38-50) -/

/-- The dedup state of `DataSaver`: `seen_jobs` (saved job URLs) and the
save queue of enqueued records. -/
structure SaverState where
  seen_jobs : List String
  job_queue : List Job
  deriving Repr, DecidableEq

/-- `DataSaver.save_job`: if the record's `url` was already seen, log a
warning and return (the record is not enqueued); otherwise record the
url and enqueue the record. -/
def save_job (s : SaverState) (job_data : Job) : SaverState :=
  if job_data.url ∈ s.seen_jobs then s
  else { seen_jobs := job_data.url :: s.seen_jobs,
         job_queue := s.job_queue ++ [job_data] }

/-- Number of records in a queue carrying the given detail address. -/
def countUrl (url : String) (q : List Job) : Nat :=
  q.countP (fun j => j.url == url)

/-- C5: submitting a second record with the same detail address is a
no-op on the saver state (dropped, not enqueued), and a fresh address
submitted twice ends up with exactly one enqueued entry. -/
theorem save_job_idempotent (s : SaverState) (j j2 : Job)
    (h : j2.url = j.url) :
    save_job (save_job s j) j2 = save_job s j ∧
    (j.url ∉ s.seen_jobs →
      countUrl j.url (save_job (save_job s j) j2).job_queue =
        countUrl j.url s.job_queue + 1) := by
  constructor
  · by_cases hmem : j.url ∈ s.seen_jobs <;> simp [save_job, hmem, h]
  · intro hnot
    simp [save_job, hnot, h, countUrl]

/-- Witness for C5: replaying the address "u" through `save_job` twice
from an empty saver leaves exactly one enqueued entry. -/
theorem save_job_idempotent_witness :
    (mkJob 2 "u").url = (mkJob 1 "u").url ∧
    save_job (save_job ⟨[], []⟩ (mkJob 1 "u")) (mkJob 2 "u") =
      save_job ⟨[], []⟩ (mkJob 1 "u") ∧
    countUrl "u" (save_job (save_job ⟨[], []⟩ (mkJob 1 "u")) (mkJob 2 "u")).job_queue = 1 := by
  refine ⟨rfl, (save_job_idempotent ⟨[], []⟩ (mkJob 1 "u") (mkJob 2 "u") rfl).1, ?_⟩
  have h := (save_job_idempotent ⟨[], []⟩ (mkJob 1 "u") (mkJob 2 "u") rfl).2
    (by simp)
  simpa [countUrl, mkJob] using h

/-! ## scraper.py — `Scraper.scrape_job` (lines 31-69)

The HTML parse and label lookups (`BeautifulSoup`, `Scraper.get_text`'s
`soup.find` chain) are external-collaborator behaviour per the
extraction contract; they are modelled by the oracle `get_text`, which
returns the extracted text for a label ("N/A" when the label is absent,
as `get_text` does; possibly "" for present-but-empty elements, which
the `or "N/A"` fallback in `scrape_job` maps to the sentinel). -/

structure ScrapeEnv where
  fetch : String → Option String
  get_text : String → String → String

/-- Python's `x or "N/A"` on a string: replace the empty (falsy) string
by the sentinel. -/
def orNA (s : String) : String := if s = "" then "N/A" else s

/-- The mutable state of one `Scraper`: scrape-level dedup set, the next
sequential id, the completed-records buffer, and the shared progress
tracker it notifies. -/
structure ScraperState where
  seen_jobs : List String
  job_id : Nat
  scraped_jobs : List Job
  progress : ProgressState
  deriving Repr, DecidableEq

/-- `Scraper.scrape_job`: skip if the address is already in `seen_jobs`
(returning `None`), else mark it seen, fetch the page (returning `None`
and producing nothing on failure), and on success build the record,
increment `job_id`, notify the tracker via `update_scrape`, and append
to `scraped_jobs`. -/
def scrape_job (env : ScrapeEnv) (s : ScraperState) (job_url : String) :
    ScraperState × Option Job :=
  if job_url ∈ s.seen_jobs then (s, none)
  else
    let s1 : ScraperState := { s with seen_jobs := job_url :: s.seen_jobs }
    match env.fetch job_url with
    | none => (s1, none)
    | some html =>
      let job_details : Job :=
        { id := s1.job_id
          url := job_url
          title := env.get_text html "title"
          publication_date := orNA (env.get_text html "Publication date:")
          workload := orNA (env.get_text html "Workload:")
          contract_type := orNA (env.get_text html "Contract type:")
          salary := orNA (env.get_text html "Salary:")
          languages := orNA (env.get_text html "Language:")
          place_of_work := orNA (env.get_text html "Place of work:") }
      let s2 : ScraperState :=
        { s1 with job_id := s1.job_id + 1
                  progress := update_scrape s1.progress
                  scraped_jobs := s1.scraped_jobs ++ [job_details] }
      (s2, some job_details)

/-- C7: when the detail-page fetch fails, `scrape_job` returns `None`,
appends nothing to the completed-records buffer, leaves `job_id` and the
progress tracker untouched — but the address is now in the scrape-level
dedup set, so every later attempt on it (under any fetch behaviour) is
skipped with no state change. -/
theorem scrape_job_fetch_failure (env : ScrapeEnv) (s : ScraperState)
    (url : String) (hseen : url ∉ s.seen_jobs)
    (hfetch : env.fetch url = none) :
    (scrape_job env s url).2 = none ∧
    (scrape_job env s url).1.scraped_jobs = s.scraped_jobs ∧
    (scrape_job env s url).1.job_id = s.job_id ∧
    (scrape_job env s url).1.progress = s.progress ∧
    url ∈ (scrape_job env s url).1.seen_jobs ∧
    ∀ env2 : ScrapeEnv,
      scrape_job env2 (scrape_job env s url).1 url =
        ((scrape_job env s url).1, none) := by
  have hstep : scrape_job env s url =
      ({ s with seen_jobs := url :: s.seen_jobs }, none) := by
    simp [scrape_job, hseen, hfetch]
  refine ⟨by rw [hstep], by rw [hstep], by rw [hstep], by rw [hstep], ?_, ?_⟩
  · rw [hstep]; exact List.mem_cons_self url s.seen_jobs
  · intro env2
    rw [hstep]
    simp [scrape_job]

/-- A fetch collaborator that always fails, with sentinel extraction. -/
def failingScrapeEnv : ScrapeEnv :=
  { fetch := fun _ => none, get_text := fun _ _ => "N/A" }

/-- A fresh scraper sharing a tracker for 2 jobs / 1 archived page. -/
def scraperState0 : ScraperState :=
  { seen_jobs := [], job_id := 1, scraped_jobs := [],
    progress := ProgressState.init 2 1 }

/-- Witness for C7 at a concrete failing address. -/
theorem scrape_job_fetch_failure_witness :
    ("u" ∉ scraperState0.seen_jobs) ∧
    failingScrapeEnv.fetch "u" = none ∧
    (scrape_job failingScrapeEnv scraperState0 "u").2 = none ∧
    (scrape_job failingScrapeEnv scraperState0 "u").1.scraped_jobs = [] ∧
    (scrape_job failingScrapeEnv scraperState0 "u").1.job_id = 1 := by
  have h := scrape_job_fetch_failure failingScrapeEnv scraperState0 "u"
    (by simp [scraperState0]) rfl
  exact ⟨by simp [scraperState0], rfl, h.1, h.2.1, h.2.2.1⟩

/-! ## downloader.py — `Downloader` (lines 30-111)

The per-address state of the archiver: the saved-file counter, the list
of raw-page files written to the html folder (named `job_{index}.html`
by the monotone index), and the archive produced by `zip_html_files`
(`none` while no zip file has been written).  The `update_download`
notification goes to the `ProgressState` model above and is orthogonal
to the file state, so it is not threaded here. -/

structure DlState where
  num_html_saved : Nat
  files : List String
  archive : Option (List String)
  deriving Repr, DecidableEq

def DlState.init : DlState := { num_html_saved := 0, files := [], archive := none }

def htmlFileName (idx : Nat) : String := "job_" ++ toString idx ++ ".html"

/-- Python's `job_url.startswith("https")`. -/
def startswithHttps (url : String) : Bool := "https".data.isPrefixOf url.data

/-- `Downloader.download_jobs` drained sequentially over the queued
URLs: invalid entries (non-string impossible here; not starting with
"https") are skipped; fetch failures are skipped; once
`num_html_saved >= HTML_FILE_LIMIT` the loop `break`s; otherwise the
counter is incremented and one file `job_{index}.html` is written. -/
def download_jobs (fetch : String → Option String) (limit : Nat) :
    List String → DlState → DlState
  | [], s => s
  | url :: rest, s =>
    if ¬startswithHttps url then download_jobs fetch limit rest s
    else
      match fetch url with
      | none => download_jobs fetch limit rest s
      | some _ =>
        if s.num_html_saved ≥ limit then s
        else
          download_jobs fetch limit rest
            { s with num_html_saved := s.num_html_saved + 1,
                     files := s.files ++ [htmlFileName (s.num_html_saved + 1)] }

/-- `Downloader.zip_html_files` (lines 89-111): below the cap it logs
and returns without touching the archive; at or above the cap it writes
one archive entry per file in the html folder. -/
def zip_html_files (limit : Nat) (s : DlState) : DlState :=
  if s.num_html_saved < limit then s
  else { s with archive := some s.files }

/-- One file is persisted per counted download. -/
lemma download_jobs_files_length (fetch : String → Option String)
    (limit : Nat) :
    ∀ (urls : List String) (s : DlState),
      s.files.length = s.num_html_saved →
      (download_jobs fetch limit urls s).files.length =
        (download_jobs fetch limit urls s).num_html_saved := by
  intro urls
  induction urls with
  | nil => intro s h; exact h
  | cons url rest ih =>
    intro s h
    unfold download_jobs
    split
    · exact ih s h
    · match hf : fetch url with
      | none => simpa [hf] using ih s h
      | some t =>
        simp only [hf]
        split
        · exact h
        · exact ih _ (by simp [h])

/-- C8: starting from a fresh downloader, whatever URLs were queued and
whatever the fetch collaborator returned, `zip_html_files` is a no-op
when fewer than `HTML_FILE_LIMIT` pages were persisted, and when exactly
the cap was persisted the archive holds exactly the persisted files —
`limit` of them, one per raw-page file. -/
theorem zip_html_files_cap (fetch : String → Option String) (limit : Nat)
    (urls : List String) :
    ((download_jobs fetch limit urls DlState.init).num_html_saved < limit →
      zip_html_files limit (download_jobs fetch limit urls DlState.init) =
        download_jobs fetch limit urls DlState.init) ∧
    ((download_jobs fetch limit urls DlState.init).num_html_saved = limit →
      (zip_html_files limit (download_jobs fetch limit urls DlState.init)).archive =
        some (download_jobs fetch limit urls DlState.init).files ∧
      (download_jobs fetch limit urls DlState.init).files.length = limit) := by
  constructor
  · intro hlt
    unfold zip_html_files
    rw [if_pos hlt]
  · intro heq
    have hlen := download_jobs_files_length fetch limit urls DlState.init rfl
    refine ⟨?_, hlen.trans heq⟩
    unfold zip_html_files
    rw [if_neg (by omega)]

/-- A fetch collaborator that always returns a page. -/
def okFetch : String → Option String := fun _ => some "html"

/-- Witness for C8: with cap 2, one successful download leaves the zip
step a no-op; three queued pages persist exactly 2 files and the archive
then holds exactly those 2 entries. -/
theorem zip_html_files_cap_witness :
    (download_jobs okFetch 2 ["https://a"] DlState.init).num_html_saved < 2 ∧
    zip_html_files 2 (download_jobs okFetch 2 ["https://a"] DlState.init) =
      download_jobs okFetch 2 ["https://a"] DlState.init ∧
    (download_jobs okFetch 2 ["https://a", "https://b", "https://c"]
        DlState.init).num_html_saved = 2 ∧
    (zip_html_files 2 (download_jobs okFetch 2 ["https://a", "https://b", "https://c"]
        DlState.init)).archive = some ["job_1.html", "job_2.html"] ∧
    (download_jobs okFetch 2 ["https://a", "https://b", "https://c"]
        DlState.init).files.length = 2 := by
  have h1 := (zip_html_files_cap okFetch 2 ["https://a"]).1 (by decide)
  have h2 := (zip_html_files_cap okFetch 2 ["https://a", "https://b", "https://c"]).2
    (by decide)
  exact ⟨by decide, h1, by decide, by rw [h2.1]; decide, h2.2⟩

/-! ## fetcher.py — `Fetcher.get_total_pages` and `Fetcher._fetch_pages`

The regular-expression engine and the HTML parser are external
collaborators; their results on a given page are modelled as oracle
fields of `FetchEnv`:

* `attempts url` — the outcomes of the successive HTTP requests for
  `url`, consumed by `fetch_page`;
* `quote_plus` — `urllib.parse.quote_plus`;
* `findall_numPages html` — the captures of
  `re.findall` for the numPages pattern over the whole page (an
  `Except` so the try/except around the extraction can catch a raised
  exception);
* `script_strings html` — the `.string` of each tag in
  `BeautifulSoup(html).find_all("script")`;
* `search_numPages s` — `re.search` for the numPages pattern in one
  script string;
* `select_detail_hrefs html` — the `href`s matched by the selector
  `a[href^='/en/vacancies/detail/']` in `extract_job_links`. -/

structure FetchEnv where
  attempts : String → Nat → FetchOutcome
  quote_plus : String → String
  findall_numPages : String → Except Unit (List Nat)
  script_strings : String → Except Unit (List (Option String))
  search_numPages : String → Except Unit (Option Nat)
  select_detail_hrefs : String → List String
  numJobs : Nat
  htmlFileLimit : Nat

/-- The listing-page URL `f"https://www.jobs.ch/en/vacancies/?page={p}&term={t}"`. -/
def pageUrl (page : Nat) (term : String) : String :=
  "https://www.jobs.ch/en/vacancies/?page=" ++ toString page ++ "&term=" ++ term

/-- Python's `'"meta":' in script.string`: substring containment. -/
def containsMeta (s : String) : Bool :=
  decide ("\"meta\":".data <:+: s.data)

/-- `Fetcher.extract_job_links` (fetcher.py lines 71-80): prepend the
site root to every href selected on the listing page. -/
def extract_job_links (env : FetchEnv) (html_content : String) : List String :=
  (env.select_detail_hrefs html_content).map
    (fun href => "https://www.jobs.ch" ++ href)

/-- The fallback loop of `get_total_pages` over the script tags: the
first script whose string is truthy, mentions `"meta":` and matches the
numPages pattern yields the page count; otherwise the scan yields
nothing. -/
def findInScripts (search : String → Except Unit (Option Nat)) :
    List (Option String) → Except Unit (Option Nat)
  | [] => .ok none
  | none :: rest => findInScripts search rest
  | some str :: rest =>
    if str = "" then findInScripts search rest
    else if containsMeta str then
      match search str with
      | .error e => .error e
      | .ok (some n) => .ok (some n)
      | .ok none => findInScripts search rest
    else findInScripts search rest

/-- The `try` block of `get_total_pages` (fetcher.py lines 117-141):
primary regex over the whole page; on no match, the structural scan over
script tags; on no match there either, default to 1 page. -/
def get_total_pages_try (env : FetchEnv) (html : String) : Except Unit Nat :=
  match env.findall_numPages html with
  | .error e => .error e
  | .ok (total_pages :: _) => .ok total_pages
  | .ok [] =>
    match env.script_strings html with
    | .error e => .error e
    | .ok scripts =>
      match findInScripts env.search_numPages scripts with
      | .error e => .error e
      | .ok (some total_pages) => .ok total_pages
      | .ok none => .ok 1

/-- `Fetcher.get_total_pages` (fetcher.py lines 105-145): fetch the
first results page; `if not html: return 0` (covers both `None` and the
empty, falsy, page text); then the try block, with `except Exception:
return 0`. -/
def get_total_pages (env : FetchEnv) (encoded_job_title : String) : Nat :=
  match fetch_page (env.attempts (pageUrl 1 encoded_job_title)) with
  | none => 0
  | some html =>
    if html = "" then 0
    else
      match get_total_pages_try env html with
      | .ok total_pages => total_pages
      | .error _ => 0

/-- The mutable discovery state touched by `_fetch_pages`: the Scrape
Queue (`job_queue`), the Archive Queue (`download_queue`), the discovery
dedup set and the global accepted counter.  The `update_fetch`
notifications go to the separately modelled `ProgressState`. -/
structure FetchState where
  job_queue : List String
  download_queue : List String
  seen_urls : List String
  fetched_count : Nat
  deriving Repr, DecidableEq

def FetchState.init : FetchState :=
  { job_queue := [], download_queue := [], seen_urls := [], fetched_count := 0 }

/-- The body of `for link in new_links` once the `fetched_count >=
NUM_JOBS` return did not fire (fetcher.py lines 192-196): always push to
the Scrape Queue; push to the Archive Queue only while `fetched_count <
HTML_FILE_LIMIT`; then increment the counter.  (Written as one
conditional; both branches perform the unconditional scrape-queue push
and increment.) -/
def linkStep (limit : Nat) (s : FetchState) (link : String) : FetchState :=
  if s.fetched_count < limit then
    { s with job_queue := s.job_queue ++ [link],
             download_queue := s.download_queue ++ [link],
             fetched_count := s.fetched_count + 1 }
  else
    { s with job_queue := s.job_queue ++ [link],
             fetched_count := s.fetched_count + 1 }

/-- The `for link in new_links` loop (fetcher.py lines 186-196).  The
returned flag records whether the `return` on `fetched_count >=
NUM_JOBS` fired, exiting `_fetch_pages` entirely (skipping the
`seen_urls.update`). -/
def processLinks (numJobs limit : Nat) : List String → FetchState → FetchState × Bool
  | [], s => (s, false)
  | link :: rest, s =>
    if s.fetched_count ≥ numJobs then (s, true)
    else processLinks numJobs limit rest (linkStep limit s link)

/-- The links on a page that pass the discovery dedup filter:
`[link for link in job_links if link not in self.seen_urls]`. -/
def new_links_of (env : FetchEnv) (html : String) (s : FetchState) : List String :=
  (extract_job_links env html).filter (fun link => !s.seen_urls.contains link)

/-- The `for current_page in range(1, total_pages + 1)` loop of
`_fetch_pages` (fetcher.py lines 164-205) for one job title.  Returns
the flag of the global `return` (target reached).  A failed or falsy
page fetch, or a page with no job links, `break`s to the next title; a
page whose links are all duplicates continues with the next page; and
the dedup-set update is skipped when the `return` fires inside the link
loop. -/
def title_pages_loop (env : FetchEnv) (term : String) :
    List Nat → FetchState → FetchState × Bool
  | [], s => (s, false)
  | current_page :: rest, s =>
    if s.fetched_count ≥ env.numJobs then (s, true)
    else
      match fetch_page (env.attempts (pageUrl current_page term)) with
      | none => (s, false)
      | some html =>
        if html = "" then (s, false)
        else if (extract_job_links env html).isEmpty then (s, false)
        else if (new_links_of env html s).isEmpty then
          title_pages_loop env term rest s
        else
          match processLinks env.numJobs env.htmlFileLimit (new_links_of env html s) s with
          | (s1, true) => (s1, true)
          | (s1, false) =>
            title_pages_loop env term rest
              { s1 with seen_urls := s1.seen_urls ++ new_links_of env html s }

/-- `Fetcher._fetch_pages` (fetcher.py lines 147-205) run by one worker
over the job-title list: a title whose `get_total_pages` comes back 0 is
skipped (`continue`); otherwise its pages `1..total_pages` are walked,
and the global `return` ends the whole traversal. -/
def fetch_pages (env : FetchEnv) : List String → FetchState → FetchState
  | [], s => s
  | job_title :: rest, s =>
    if get_total_pages env (env.quote_plus job_title) = 0 then
      fetch_pages env rest s
    else
      match title_pages_loop env (env.quote_plus job_title)
          (List.range' 1 (get_total_pages env (env.quote_plus job_title))) s with
      | (s1, true) => s1
      | (s1, false) => fetch_pages env rest s1

/-- The Archive-Queue invariant of discovery: the number of addresses
pushed to the download queue equals the accepted count clipped at the
cap. -/
def DQInv (limit : Nat) (s : FetchState) : Prop :=
  s.download_queue.length = min s.fetched_count limit

lemma linkStep_dq {limit : Nat} {s : FetchState} (link : String)
    (h : DQInv limit s) : DQInv limit (linkStep limit s link) := by
  unfold DQInv at *
  unfold linkStep
  by_cases hc : s.fetched_count < limit
  · rw [if_pos hc]
    show (s.download_queue ++ [link]).length = min (s.fetched_count + 1) limit
    rw [List.length_append]
    simp only [List.length_cons, List.length_nil]
    omega
  · rw [if_neg hc]
    show s.download_queue.length = min (s.fetched_count + 1) limit
    omega

lemma processLinks_dq {numJobs limit : Nat} :
    ∀ (links : List String) (s : FetchState), DQInv limit s →
      DQInv limit (processLinks numJobs limit links s).1
  | [], _, h => h
  | link :: rest, s, h => by
    unfold processLinks
    split
    · exact h
    · exact processLinks_dq rest (linkStep limit s link) (linkStep_dq link h)

lemma title_pages_loop_dq (env : FetchEnv) (term : String) :
    ∀ (pages : List Nat) (s : FetchState), DQInv env.htmlFileLimit s →
      DQInv env.htmlFileLimit (title_pages_loop env term pages s).1 := by
  intro pages
  induction pages with
  | nil => intro s h; exact h
  | cons p rest ih =>
    intro s h
    unfold title_pages_loop
    split
    · exact h
    · split
      · exact h
      · rename_i html heq
        split
        · exact h
        · split
          · exact h
          · split
            · exact ih s h
            · split
              · rename_i s1 heq2
                have h1 := @processLinks_dq env.numJobs env.htmlFileLimit
                  (new_links_of env html s) s h
                rw [heq2] at h1
                exact h1
              · rename_i s1 heq2
                have h1 := @processLinks_dq env.numJobs env.htmlFileLimit
                  (new_links_of env html s) s h
                rw [heq2] at h1
                apply ih
                unfold DQInv at *
                exact h1

lemma fetch_pages_dq (env : FetchEnv) :
    ∀ (titles : List String) (s : FetchState), DQInv env.htmlFileLimit s →
      DQInv env.htmlFileLimit (fetch_pages env titles s) := by
  intro titles
  induction titles with
  | nil => intro s h; exact h
  | cons t rest ih =>
    intro s h
    unfold fetch_pages
    split
    · exact ih s h
    · split
      · rename_i s1 heq
        have h1 := title_pages_loop_dq env (env.quote_plus t)
          (List.range' 1 (get_total_pages env (env.quote_plus t))) s h
        rw [heq] at h1
        exact h1
      · rename_i s1 heq
        have h1 := title_pages_loop_dq env (env.quote_plus t)
          (List.range' 1 (get_total_pages env (env.quote_plus t))) s h
        rw [heq] at h1
        exact ih s1 h1

/-- C9: in discovery, processing a newly accepted address below the
global target always appends it to the Scrape Queue, appends it to the
Archive Queue exactly when fewer than `HTML_FILE_LIMIT` addresses have
been pushed there so far (and otherwise leaves the Archive Queue
alone), and consequently a full discovery run never enqueues more than
`HTML_FILE_LIMIT` addresses for archiving. -/
theorem discovery_archive_cap (env : FetchEnv) :
    (∀ (s : FetchState) (link : String),
      DQInv env.htmlFileLimit s →
      (linkStep env.htmlFileLimit s link).job_queue = s.job_queue ++ [link] ∧
      ((linkStep env.htmlFileLimit s link).download_queue =
          s.download_queue ++ [link] ↔
        s.download_queue.length < env.htmlFileLimit) ∧
      (¬s.download_queue.length < env.htmlFileLimit →
        (linkStep env.htmlFileLimit s link).download_queue = s.download_queue)) ∧
    (∀ (s : FetchState) (link : String) (rest : List String),
      s.fetched_count < env.numJobs →
      processLinks env.numJobs env.htmlFileLimit (link :: rest) s =
        processLinks env.numJobs env.htmlFileLimit rest
          (linkStep env.htmlFileLimit s link)) ∧
    (∀ titles : List String,
      (fetch_pages env titles FetchState.init).download_queue.length ≤
        env.htmlFileLimit) := by
  refine ⟨?_, ?_, ?_⟩
  · intro s link h
    unfold DQInv at h
    unfold linkStep
    by_cases hc : s.fetched_count < env.htmlFileLimit
    · rw [if_pos hc]
      refine ⟨rfl, ⟨fun _ => ?_, fun _ => rfl⟩, fun hn => absurd ?_ hn⟩ <;> omega
    · rw [if_neg hc]
      refine ⟨rfl, ⟨fun heq => ?_, fun hlt => absurd hlt ?_⟩, fun _ => rfl⟩
      · have := congrArg List.length heq
        rw [List.length_append] at this
        simp only [List.length_cons, List.length_nil] at this
        omega
      · omega
  · intro s link rest hlt
    conv_lhs => rw [processLinks]
    rw [if_neg (by omega)]
  · intro titles
    have h := fetch_pages_dq env titles FetchState.init
      (by unfold DQInv FetchState.init; simp)
    unfold DQInv at h
    omega

/-- A small concrete discovery environment: one listing page yielding
three detail addresses, a target of 2 accepted jobs and an archive cap
of 1. -/
def wDiscEnv : FetchEnv :=
  { attempts := fun _ _ => .success "<html>"
    quote_plus := fun t => t
    findall_numPages := fun _ => .ok [1]
    script_strings := fun _ => .ok []
    search_numPages := fun _ => .ok none
    select_detail_hrefs := fun _ =>
      ["/en/vacancies/detail/1", "/en/vacancies/detail/2", "/en/vacancies/detail/3"]
    numJobs := 2
    htmlFileLimit := 1 }

/-- Witness for C9 at the concrete environment: the invariant holds at
the fresh state, the first accepted link goes to both queues because the
Archive Queue is below its cap, and a full run enqueues at most the cap
for archiving. -/
theorem discovery_archive_cap_witness :
    DQInv wDiscEnv.htmlFileLimit FetchState.init ∧
    FetchState.init.fetched_count < wDiscEnv.numJobs ∧
    ((linkStep wDiscEnv.htmlFileLimit FetchState.init "l").download_queue =
        FetchState.init.download_queue ++ ["l"] ↔
      FetchState.init.download_queue.length < wDiscEnv.htmlFileLimit) ∧
    (fetch_pages wDiscEnv ["t"] FetchState.init).download_queue.length ≤
      wDiscEnv.htmlFileLimit := by
  have h := discovery_archive_cap wDiscEnv
  have hinv : DQInv wDiscEnv.htmlFileLimit FetchState.init := by
    unfold DQInv FetchState.init
    simp
  exact ⟨hinv, by decide, (h.1 FetchState.init "l" hinv).2.1, h.2.2 ["t"]⟩

/-- C6: when the first page of a search term is fetched (non-falsy),
the primary regex over the embedded metadata blob yields no match, and
the structural scan over the script tags also yields nothing,
`get_total_pages` returns the default of 1 page. -/
theorem get_total_pages_default_one (env : FetchEnv) (t html : String)
    (hfetch : fetch_page (env.attempts (pageUrl 1 t)) = some html)
    (hne : html ≠ "")
    (hfindall : env.findall_numPages html = .ok [])
    (scripts : List (Option String))
    (hscripts : env.script_strings html = .ok scripts)
    (hscan : findInScripts env.search_numPages scripts = .ok none) :
    get_total_pages env t = 1 := by
  simp only [get_total_pages, hfetch, if_neg hne, get_total_pages_try,
    hfindall, hscripts, hscan]

/-- An environment whose first page bears no parsable page count: the
regex finds nothing and the only non-empty script string lacks the
metadata marker. -/
def wEnvC6 : FetchEnv :=
  { attempts := fun _ _ => .success "x"
    quote_plus := fun t => t
    findall_numPages := fun _ => .ok []
    script_strings := fun _ => .ok [none, some "abc"]
    search_numPages := fun _ => .ok none
    select_detail_hrefs := fun _ => []
    numJobs := 2
    htmlFileLimit := 1 }

/-- Witness for C6 at the concrete environment. -/
theorem get_total_pages_default_one_witness :
    fetch_page (wEnvC6.attempts (pageUrl 1 "term")) = some "x" ∧
    "x" ≠ "" ∧
    wEnvC6.findall_numPages "x" = .ok [] ∧
    wEnvC6.script_strings "x" = .ok [none, some "abc"] ∧
    findInScripts wEnvC6.search_numPages [none, some "abc"] = .ok none ∧
    get_total_pages wEnvC6 "term" = 1 := by
  have hscan : findInScripts wEnvC6.search_numPages [none, some "abc"] = .ok none := by
    rfl
  exact ⟨rfl, by decide, rfl, rfl, hscan,
    get_total_pages_default_one wEnvC6 "term" "x" rfl (by decide) rfl
      [none, some "abc"] rfl hscan⟩

/-- C10: a failed (or falsy) fetch of a term's first page, and likewise
an exception inside the page-count extraction, makes `get_total_pages`
return 0 rather than the default 1, and a term whose page count is 0 is
skipped entirely by `_fetch_pages` — the traversal continues with the
remaining titles from an unchanged state. -/
theorem get_total_pages_zero_skips (env : FetchEnv) :
    (∀ t : String, fetch_page (env.attempts (pageUrl 1 t)) = none →
      get_total_pages env t = 0) ∧
    (∀ t html : String, fetch_page (env.attempts (pageUrl 1 t)) = some html →
      html ≠ "" → get_total_pages_try env html = .error () →
      get_total_pages env t = 0) ∧
    (∀ (job_title : String) (rest : List String) (s : FetchState),
      get_total_pages env (env.quote_plus job_title) = 0 →
      fetch_pages env (job_title :: rest) s = fetch_pages env rest s) := by
  refine ⟨?_, ?_, ?_⟩
  · intro t h
    simp only [get_total_pages, h]
  · intro t html hf hne herr
    simp only [get_total_pages, hf, if_neg hne, herr]
  · intro jt rest s h
    conv_lhs => rw [fetch_pages]
    rw [if_pos h]

/-- An environment whose every HTTP request fails transiently. -/
def wFailEnv : FetchEnv :=
  { attempts := fun _ _ => .requestException
    quote_plus := fun t => t
    findall_numPages := fun _ => .ok []
    script_strings := fun _ => .ok []
    search_numPages := fun _ => .ok none
    select_detail_hrefs := fun _ => []
    numJobs := 2
    htmlFileLimit := 1 }

/-- An environment whose page-count extraction raises. -/
def wErrEnv : FetchEnv :=
  { attempts := fun _ _ => .success "x"
    quote_plus := fun t => t
    findall_numPages := fun _ => .error ()
    script_strings := fun _ => .ok []
    search_numPages := fun _ => .ok none
    select_detail_hrefs := fun _ => []
    numJobs := 2
    htmlFileLimit := 1 }

/-- Witness for C10: a failing fetch and a raising extraction both give
page count 0, and the term is then skipped by the traversal. -/
theorem get_total_pages_zero_skips_witness :
    fetch_page (wFailEnv.attempts (pageUrl 1 "a")) = none ∧
    get_total_pages wFailEnv "a" = 0 ∧
    fetch_page (wErrEnv.attempts (pageUrl 1 "a")) = some "x" ∧
    get_total_pages_try wErrEnv "x" = .error () ∧
    get_total_pages wErrEnv "a" = 0 ∧
    fetch_pages wFailEnv ["a"] FetchState.init =
      fetch_pages wFailEnv [] FetchState.init := by
  have h1 := (get_total_pages_zero_skips wFailEnv).1 "a" rfl
  have h2 := (get_total_pages_zero_skips wErrEnv).2.1 "a" "x" rfl (by decide) rfl
  have h3 := (get_total_pages_zero_skips wFailEnv).2.2 "a" [] FetchState.init h1
  exact ⟨rfl, h1, rfl, rfl, h2, h3⟩

end JobCrawling
